import Mathlib

/-!
# Verification of the macewan-cs/lti launch and service-connector core

Shallow embedding of the Go sources of the `macewan-cs/lti` library:
the in-memory (nonpersistent) datastore, the launch validation pipeline
(`launch/launch.go`), and the service connector (`connector/connector.go`,
`connector/ags.go`).  Go maps (`sync.Map`) are modelled as association
lists, Go `error` returns as `Except`/sum types, `time.Time` instants as
integers (with `0` standing for Go's zero `time.Time`), and unchecked Go
interface type assertions as an explicit `panic` outcome.  External
cryptographic and network primitives (JWT parse/verify, key-set fetch,
the token-endpoint exchange, HTTP dispatch) are oracle parameters, as the
library treats them as trusted collaborators.
-/

namespace Lti

/-- A finite map from `String` keys, modelling a Go `sync.Map`. -/
def SMap (V : Type) : Type := List (String × V)

namespace SMap

/-- `Load`: first binding for the key, if any. -/
def load {V : Type} (m : SMap V) (k : String) : Option V :=
  match m with
  | [] => none
  | (k', v) :: rest => if k' = k then some v else load rest k

/-- `Store`: replace any existing binding for the key, else prepend. -/
def store {V : Type} (m : SMap V) (k : String) (v : V) : SMap V :=
  match m with
  | [] => [(k, v)]
  | (k', v') :: rest => if k' = k then (k, v) :: rest else (k', v') :: store rest k v

/-- `Delete`: remove every binding for the key. -/
def erase {V : Type} (m : SMap V) (k : String) : SMap V :=
  match m with
  | [] => []
  | (k', v') :: rest => if k' = k then erase rest k else (k', v') :: erase rest k

end SMap

/-!
## Nonce storage (`datastore/nonpersistent`, `TestAndClearNonce`)

The nonce store maps each nonce value to the `target_link_uri` recorded at
login time (`StoreNonce`).  `TestAndClearNonce` loads the entry, returns
`ErrNonceNotFound` when absent, unconditionally deletes the entry when
present, and then reports `ErrNonceTargetLinkURIMismatch` when the stored
URI differs from the presented one.
-/

/-- Error outcomes of the nonce-store operations, mirroring the Go `error`
values (`nil`, the two named datastore sentinel errors, and the
argument-validation errors built with `errors.New`). -/
inductive NonceErr where
  | ok : NonceErr
  | errNonceNotFound : NonceErr
  | errNonceTargetLinkURIMismatch : NonceErr
  | errMsg : String → NonceErr
deriving DecidableEq, Repr

/-- The nonce store: nonce value ↦ target link URI. -/
def NonceMap : Type := SMap String

/-- `Store.StoreNonce` from `datastore/nonpersistent`: validates both
arguments nonempty, then stores the target link URI under the nonce. -/
def storeNonce (m : NonceMap) (nonce targetLinkURI : String) :
    NonceErr × NonceMap :=
  if nonce = "" then (.errMsg "received empty nonce argument", m)
  else if targetLinkURI = "" then (.errMsg "received empty issuer argument", m)
  else (.ok, SMap.store m nonce targetLinkURI)

/-- `Store.TestAndClearNonce` from `datastore/nonpersistent`: validates the
arguments, loads the nonce (absent → `ErrNonceNotFound`), deletes the entry,
and reports a mismatch error when the stored URI differs from the given one. -/
def testAndClearNonce (m : NonceMap) (nonce targetLinkURI : String) :
    NonceErr × NonceMap :=
  if nonce = "" then (.errMsg "received empty nonce argument", m)
  else if targetLinkURI = "" then (.errMsg "received empty target link uri argument", m)
  else
    match SMap.load m nonce with
    | none => (.errNonceNotFound, m)
    | some checkURI =>
      let m' := SMap.erase m nonce
      if checkURI ≠ targetLinkURI then (.errNonceTargetLinkURIMismatch, m')
      else (.ok, m')

/-!
## Access-token storage (`datastore/nonpersistent`, `StoreAccessToken` /
`FindAccessToken`)

`time.Time` is modelled as `Int`; `0` stands for Go's zero `time.Time`, and
`t.Before(t')` is `t < t'`.  The JSON marshal/unmarshal round trip used by
the store is the identity in this model (its error branches are unreachable
for well-formed in-memory values).
-/

/-- `datastore.AccessToken`: a cached bearer token. -/
structure AccessToken where
  tokenURI : String
  clientID : String
  scopes : List String
  token : String
  expiryTime : Int
deriving DecidableEq, Repr

/-- Byte-wise lexicographic string order, as Go compares strings
(character code points; the scope strings are ASCII). -/
def charListLess : List Char → List Char → Bool
  | [], [] => false
  | [], _ :: _ => true
  | _ :: _, [] => false
  | c :: cs, d :: ds =>
    if c.toNat < d.toNat then true
    else if d.toNat < c.toNat then false
    else charListLess cs ds

/-- Go `s1 < s2` on strings. -/
def stringLess (a b : String) : Bool := charListLess a.toList b.toList

/-- One insertion step of `sort.Strings` (ascending lexicographic order). -/
def insertSorted (x : String) : List String → List String
  | [] => [x]
  | y :: ys => if stringLess y x then y :: insertSorted x ys else x :: y :: ys

/-- `sort.Strings`: ascending lexicographic sort of the scope list. -/
def sortStrings : List String → List String
  | [] => []
  | x :: xs => insertSorted x (sortStrings xs)

/-- `accessTokenIndex` from `datastore/nonpersistent`:
`tokenURI + clientID + strings.Join(scopes, " ")`. -/
def accessTokenIndex (tokenURI clientID : String) (scopes : List String) : String :=
  tokenURI ++ clientID ++ String.intercalate " " scopes

/-- The access-token store: index string ↦ marshalled token. -/
def AccessTokenMap : Type := SMap AccessToken

/-- `Store.StoreAccessToken` from `datastore/nonpersistent`: validates the
fields, sorts the scope list (`sort.Strings(token.Scopes)`), and stores the
token under the index built from the sorted scopes. -/
def storeAccessToken (m : AccessTokenMap) (t : AccessToken) :
    Except String AccessTokenMap :=
  if t.tokenURI = "" then .error "received empty tokenURI"
  else if t.clientID = "" then .error "received empty clientID"
  else if t.scopes = [] then .error "received empty scopes"
  else if t.token = "" then .error "received empty accessToken"
  else if t.expiryTime = 0 then .error "received empty expiry time"
  else
    let sorted := sortStrings t.scopes
    let stored := { t with scopes := sorted }
    .ok (SMap.store m (accessTokenIndex t.tokenURI t.clientID sorted) stored)

/-- `Store.FindAccessToken` from `datastore/nonpersistent`: validates the
search token's fields, looks up the index built from the scope list **as
given** (no sorting), and rejects entries whose expiry is before `now`. -/
def findAccessToken (m : AccessTokenMap) (t : AccessToken) (now : Int) :
    Except String AccessToken :=
  if t.tokenURI = "" then .error "received empty tokenURI"
  else if t.clientID = "" then .error "received empty clientID"
  else if t.scopes = [] then .error "received empty scopes"
  else if t.token = "" then .error "received empty accessToken"
  else if t.expiryTime = 0 then .error "received empty expiry time"
  else
    match SMap.load m (accessTokenIndex t.tokenURI t.clientID t.scopes) with
    | none => .error "no access token found"
    | some accessToken =>
      if accessToken.expiryTime < now then .error "access token has expired"
      else .ok accessToken

/-!
## JWT claim values and tokens

Go's `jwt.Token` exposes `Issuer()`, `Audience()` (a string list) and
`Get(name)` over an untyped claim map (`interface{}` values).  Claim values
are modelled as a small JSON-value type; a Go type assertion `v.(string)`
without the comma-ok form is partial and surfaces as a `panic` outcome.
-/

/-- An untyped JWT claim value (`interface{}` holding decoded JSON). -/
inductive ClaimValue where
  | str : String → ClaimValue
  | num : Int → ClaimValue
  | boolean : Bool → ClaimValue
  | obj : List (String × ClaimValue) → ClaimValue
  | arr : List ClaimValue → ClaimValue
  | null : ClaimValue
deriving BEq, Repr

/-- A parsed JWT payload: registered issuer/audience claims plus the raw
claim map consulted through `Get`. -/
structure Token where
  issuer : String
  audience : List String
  claims : List (String × ClaimValue)

/-- `token.Get(name)`: first binding for the claim name, if any. -/
def Token.get (t : Token) (name : String) : Option ClaimValue :=
  match t.claims.find? (fun p => p.1 = name) with
  | some p => some p.2
  | none => none

/-- `v.(string)` with the comma-ok form: `some` exactly on string values. -/
def ClaimValue.asString : ClaimValue → Option String
  | .str s => some s
  | _ => none

/-- `v.(map[string]interface{})` with the comma-ok form. -/
def ClaimValue.asObj : ClaimValue → Option (List (String × ClaimValue))
  | .obj kvs => some kvs
  | _ => none

/-!
## Registrations

`datastore.Registration` with its URL fields modelled as strings.  The
current `datastore.RegistrationStorer` interface declares
`FindRegistrationByIssuerAndClientID(issuer, clientID)` and `launch.go` and
`connector.go` call it, but no implementation of it appears under `src`
(both the in-memory and the SQL store still carry the older by-issuer-only
lookup), so the lookup is modelled from the spec below.
-/

/-- `datastore.Registration`: one platform↔tool trust relationship. -/
structure Registration where
  issuer : String
  clientID : String
  authTokenURI : String
  authLoginURI : String
  keysetURI : String
  targetLinkURI : String
deriving DecidableEq, Repr

/-- The registration store: (issuer, client ID) ↦ registration. -/
def RegistrationMap : Type := List ((String × String) × Registration)

/-- Lookup in the (issuer, client ID)-keyed registration store. -/
def RegistrationMap.find (m : RegistrationMap) (k : String × String) :
    Option Registration :=
  match m with
  | [] => none
  | (k', v) :: rest => if k' = k then some v else RegistrationMap.find rest k

/-- Modelled from the spec: the store implementation of
`StoreRegistration` keyed per the invariant "unique per (issuer, client
identifier) pair" is absent from `src` (the in-src stores key by issuer
alone, predating the current `RegistrationStorer` interface); the modelled
store records the registration under its (issuer, client ID) pair. -/
def storeRegistration (m : RegistrationMap) (reg : Registration) : RegistrationMap :=
  ((reg.issuer, reg.clientID), reg) :: m

/-- Modelled from the spec: the store implementation of
`FindRegistrationByIssuerAndClientID` declared by
`datastore.RegistrationStorer` is absent from `src`; per the spec's
"find a matching Registration. Not found → client error (no trust
relationship)", it retrieves the registration stored under the (issuer,
client ID) pair or reports the `ErrRegistrationNotFound` sentinel. -/
def findRegistrationByIssuerAndClientID (m : RegistrationMap)
    (issuer clientID : String) : Except String Registration :=
  match RegistrationMap.find m (issuer, clientID) with
  | some reg => .ok reg
  | none => .error "registration not found"

/-!
## Connector (`connector/connector.go`)

The connector holds the verified launch token, the configured stores, an
optional RSA signing key (modelled by its presence), and the active access
token.  The token-endpoint exchange (`sendRequest`'s HTTP POST and JSON
decode) is an oracle `Except String (String × Int)` delivering the
response's `access_token` and `expires_in` values.
-/

/-- Result of a connector call, separating Go's `error` returns from
runtime panics raised by unchecked type assertions or indexing. -/
inductive CRes (α : Type) where
  | ok : α → CRes α
  | err : String → CRes α
  | panic : CRes α
deriving Repr

/-- `connector.Connector`: launch token, configured stores, signing key
presence, and the active access token. -/
structure Connector where
  regs : RegistrationMap
  accessTokens : AccessTokenMap
  launchToken : Token
  hasSigningKey : Bool
  accessToken : AccessToken

/-- `Connector.getRegistration`: looks the registration up by the launch
token's issuer and first audience entry; `Audience()[0]` panics when the
verified token has no audience. -/
def Connector.getRegistration (c : Connector) : CRes Registration :=
  match c.launchToken.audience with
  | [] => .panic
  | a0 :: _ =>
    match findRegistrationByIssuerAndClientID c.regs c.launchToken.issuer a0 with
    | .ok reg => .ok reg
    | .error e => .err e

/-- Modelled from the spec: the nonpersistent implementation of the
three-argument `FindAccessToken(tokenURI, clientID, scopes)` declared by
`datastore.AccessTokenStorer` is absent from `src` (the in-src
implementation takes an `AccessToken` search value); per the spec's "probe
the token cache keyed by (token endpoint, client id, scopes)" with the
"not found" / "found but expired" sentinels, it probes the cache under the
index the in-src `accessTokenIndex` builds from the scope list as given. -/
def findAccessTokenByIndex (m : AccessTokenMap) (tokenURI clientID : String)
    (scopes : List String) (now : Int) : Except String AccessToken :=
  if tokenURI = "" then .error "received empty tokenURI"
  else if clientID = "" then .error "received empty clientID"
  else if scopes = [] then .error "received empty scopes"
  else
    match SMap.load m (accessTokenIndex tokenURI clientID scopes) with
    | none => .error "no access token found"
    | some accessToken =>
      if accessToken.expiryTime < now then .error "access token has expired"
      else .ok accessToken

/-- `Connector.checkAccessTokenStore`: probes the store and re-checks that
the found token has not expired. -/
def checkAccessTokenStore (m : AccessTokenMap) (tokenURI clientID : String)
    (scopes : List String) (now : Int) : Except String AccessToken :=
  match findAccessTokenByIndex m tokenURI clientID scopes now with
  | .error e => .error ("suitable access token not found: " ++ e)
  | .ok foundToken =>
    if foundToken.expiryTime < now then .error "access token found but has expired"
    else .ok foundToken

/-- `Connector.createRequest`, reduced to its configuration gate: building
and signing the client-assertion JWT requires the signing key; the JWT
construction and form encoding themselves are external primitives. -/
def createRequest (c : Connector) : Except String Unit :=
  if c.hasSigningKey then .ok () else .error "signing key has not been set for this connector"

/-- `sendRequest`: on a 200 response (oracle `.ok (accessToken, expiresIn)`)
returns an `AccessToken` whose URI is the request URI and whose absolute
expiry is `now + expiresIn` seconds; client ID and scopes are filled in by
the caller. -/
def sendRequest (xchg : Except String (String × Int)) (tokenURI : String)
    (now : Int) : Except String AccessToken :=
  match xchg with
  | .error e => .error e
  | .ok (responseToken, expiresIn) =>
    .ok { tokenURI := tokenURI, clientID := "", scopes := [],
          token := responseToken, expiryTime := now + expiresIn }

/-- `Connector.GetAccessToken`: resolves the registration, probes the token
cache, and on a miss performs the signed client-credentials exchange,
caches the response token (the store error is ignored, as in the source)
and sets it as the connector's active token.  The returned flag records
whether a token-endpoint exchange was performed. -/
def getAccessToken (c : Connector) (scopes : List String) (now : Int)
    (xchg : Except String (String × Int)) : CRes (Connector × Bool) :=
  match c.getRegistration with
  | .panic => .panic
  | .err e => .err ("get registration for access token: " ++ e)
  | .ok registration =>
    match checkAccessTokenStore c.accessTokens registration.authTokenURI
        registration.clientID scopes now with
    | .ok storedToken => .ok ({ c with accessToken := storedToken }, false)
    | .error _ =>
      match createRequest c with
      | .error e => .err ("create request for access token: " ++ e)
      | .ok _ =>
        match sendRequest xchg registration.authTokenURI now with
        | .error e => .err ("send request for access token: " ++ e)
        | .ok rt0 =>
          let responseToken := { rt0 with clientID := registration.clientID, scopes := scopes }
          let m' := match storeAccessToken c.accessTokens responseToken with
                    | .ok m' => m'
                    | .error _ => c.accessTokens
          .ok ({ c with accessTokens := m', accessToken := responseToken }, true)

/-!
## Launch validation pipeline (`launch/launch.go`)

`Launch.ServeHTTP` runs an ordered chain of validators, aborting at the
first failure with `http.Error(w, err.Error(), statusCode)`.  The embedding
returns the list of validation steps executed together with the outcome.
External primitives appear as oracle fields of `LaunchEnv`: the raw JWT
parse, the key-set fetch, and the signature-verifying parse.  The nonce
store is the in-memory store embedded above; the registration and
deployment lookups go through the `RegistrationStorer` interface and are
abstract functions.
-/

/-- Supported LTI version literal from `launch.go`. -/
def supportedLTIVersion : String := "1.3.0"

/-- Maximum resource link ID length from `launch.go`. -/
def maximumResourceLinkIDLength : Nat := 255

/-- Result of one validation step: Go `(statusCode int, err error)` pairs
plus an explicit runtime-panic outcome for unchecked type assertions and
out-of-range indexing. -/
inductive GoRes (α : Type) where
  | ok : α → GoRes α
  | err : Nat → String → GoRes α
  | panic : GoRes α
deriving Repr, DecidableEq

/-- Result of `RegistrationStorer.FindRegistrationByIssuerAndClientID`
as observed by the launch validator: found, the `ErrRegistrationNotFound`
sentinel, or another lookup error. -/
inductive RegLookupRes where
  | found : Registration → RegLookupRes
  | errNotFound : RegLookupRes
  | errOther : String → RegLookupRes
deriving DecidableEq

/-- Result of `RegistrationStorer.FindDeployment`: found, the
`ErrDeploymentNotFound` sentinel, or another lookup error. -/
inductive DeployLookupRes where
  | found : DeployLookupRes
  | errNotFound : DeployLookupRes
  | errOther : String → DeployLookupRes
deriving DecidableEq

/-- The environment of one launch request: request data plus oracles for
the external JWT/key-set primitives and the configured stores. -/
structure LaunchEnv where
  /-- `jwt.Parse(idToken)` without verification (used by `getRawToken`
  and `validateRegistration`). -/
  parseResult : Except String Token
  /-- `cfg.Registrations.FindRegistrationByIssuerAndClientID`. -/
  findReg : String → String → RegLookupRes
  /-- `jwk.Fetch` of the registration's key-set URI. -/
  keysetFetch : Except String Unit
  /-- `jwt.Parse(rawToken, jwt.WithKeySet(keyset))`: `ok` exactly when the
  signature verifies, delivering the verified token. -/
  verifyResult : Except String Token
  /-- The state cookie value (current or legacy cookie name), if present. -/
  cookieState : Option String
  /-- `r.FormValue("state")`. -/
  formState : String
  /-- `cfg.Nonces`: the in-memory nonce store. -/
  nonces : NonceMap
  /-- `cfg.Registrations.FindDeployment`. -/
  findDeployment : String → String → DeployLookupRes
  /-- `getLaunchData`: base64 decode of the raw token's payload part. -/
  launchData : Except String Unit

/-- `contains` from `launch.go`: whether a string exists in a `[]string`. -/
def goContains (n : String) (s : List String) : Bool :=
  s.any (fun v => v = n)

/-- `getRawToken`: parse the `id_token` form value for structural JWT
errors (no verification yet). -/
def getRawToken (env : LaunchEnv) : GoRes Unit :=
  match env.parseResult with
  | .error e => .err 400 ("get raw token: " ++ e)
  | .ok _ => .ok ()

/-- `validateRegistration`: re-parse the token, read its issuer and first
audience entry (`token.Audience()[0]` panics on an empty audience), and
look up the registration; the `ErrRegistrationNotFound` sentinel is a 400,
other lookup failures are 500s. -/
def validateRegistration (env : LaunchEnv) : GoRes Registration :=
  match env.parseResult with
  | .error e => .err 400 ("validate registration: " ++ e)
  | .ok token =>
    match token.audience with
    | [] => .panic
    | clientID :: _ =>
      match env.findReg token.issuer clientID with
      | .found registration => .ok registration
      | .errNotFound => .err 400 ("no registration found for iss " ++ token.issuer)
      | .errOther e => .err 500 ("validate registration: " ++ e)

/-- `validateSignature`: fetch the issuer's key set (failure → 500) and
verify the token signature against it (failure → 400). -/
def validateSignature (env : LaunchEnv) (_registration : Registration) : GoRes Token :=
  match env.keysetFetch with
  | .error e => .err 500 ("validate signature: " ++ e)
  | .ok _ =>
    match env.verifyResult with
    | .error e => .err 400 ("validate signature: " ++ e)
    | .ok verifiedToken => .ok verifiedToken

/-- `validateState`: compare the state cookie against the form's `state`
value. -/
def validateState (env : LaunchEnv) : GoRes Unit :=
  match env.cookieState with
  | none => .err 400 "cannot get cookie from request"
  | some cookieValue =>
    if cookieValue ≠ env.formState then .err 400 "state validation failed"
    else .ok ()

/-- `validateClientID`: the registration's client ID must appear in the
verified token's audience list. -/
def validateClientID (verifiedToken : Token) (registration : Registration) : GoRes Unit :=
  if goContains registration.clientID verifiedToken.audience then .ok ()
  else .err 400 "client ID not registered for this issuer"

/-- `validateNonceAndTargetLinkURI`: read the `target_link_uri` and `nonce`
claims (unchecked `.(string)` assertions) and atomically test-and-clear the
nonce; the two nonce sentinels are 400s, other store errors 500s. -/
def validateNonceAndTargetLinkURI (verifiedToken : Token) (nonces : NonceMap) :
    GoRes Unit × NonceMap :=
  match verifiedToken.get "https://purl.imsglobal.org/spec/lti/claim/target_link_uri" with
  | none => (.err 400 "target link URI not found in request", nonces)
  | some targetLinkURI =>
    match verifiedToken.get "nonce" with
    | none => (.err 400 "nonce not found in request", nonces)
    | some nonce =>
      match nonce.asString, targetLinkURI.asString with
      | some nonceStr, some targetStr =>
        match testAndClearNonce nonces nonceStr targetStr with
        | (.ok, nonces') => (.ok (), nonces')
        | (.errNonceNotFound, nonces') => (.err 400 "nonce not found", nonces')
        | (.errNonceTargetLinkURIMismatch, nonces') =>
          (.err 400 "nonce found with mismatched target link uri", nonces')
        | (.errMsg e, nonces') => (.err 500 e, nonces')
      | _, _ => (.panic, nonces)

/-- `validateDeploymentID`: read the deployment ID claim (unchecked
`.(string)` assertion) and confirm the deployment exists under the
issuer. -/
def validateDeploymentID (verifiedToken : Token) (env : LaunchEnv) : GoRes Unit :=
  match verifiedToken.get "https://purl.imsglobal.org/spec/lti/claim/deployment_id" with
  | none => .err 400 "deployment not found in request"
  | some deploymentID =>
    match deploymentID.asString with
    | none => .panic
    | some deploymentStr =>
      match env.findDeployment verifiedToken.issuer deploymentStr with
      | .found => .ok ()
      | .errNotFound => .err 400 "deployment not found"
      | .errOther e => .err 500 e

/-- Go `interface{} == string` comparison: true exactly when the claim
value is that string. -/
def claimEqString (v : ClaimValue) (s : String) : Bool :=
  match v with
  | .str s' => s' = s
  | _ => false

/-- `validateVersionAndMessageType`: the version claim must equal the one
supported literal (`interface{}` comparison, so any non-string or other
string mismatches); the message type claim is read with an unchecked
`.(string)` assertion and must be `LtiResourceLinkRequest`. -/
def validateVersionAndMessageType (verifiedToken : Token) : GoRes Unit :=
  match verifiedToken.get "https://purl.imsglobal.org/spec/lti/claim/version" with
  | none => .err 400 "LTI version not found in request"
  | some ltiVersion =>
    if claimEqString ltiVersion supportedLTIVersion = false then
      .err 400 "compatible version not found in request"
    else
      match verifiedToken.get "https://purl.imsglobal.org/spec/lti/claim/message_type" with
      | none => .err 400 "message type not found in request"
      | some messageType =>
        match messageType.asString with
        | none => .panic
        | some messageStr =>
          if messageStr ≠ "LtiResourceLinkRequest" then
            .err 400 "supported message type not found in request"
          else .ok ()

/-- `validateResourceLink`: the resource-link claim must be present and an
object (comma-ok assertion), carry an `id` entry, and — through an
**unchecked** `resourceLinkID.(string)` assertion — the id must not exceed
the maximum length.  A non-string `id` value panics. -/
def validateResourceLink (verifiedToken : Token) : GoRes Unit :=
  match verifiedToken.get "https://purl.imsglobal.org/spec/lti/claim/resource_link" with
  | none => .err 400 "resource link not found in request"
  | some rawResourceLink =>
    match rawResourceLink.asObj with
    | none => .err 400 "resource link improperly formatted"
    | some resourceLink =>
      match resourceLink.find? (fun p => p.1 = "id") with
      | none => .err 400 "resource link ID not found"
      | some entry =>
        match entry.2.asString with
        | none => .panic
        | some idStr =>
          if idStr.utf8ByteSize > maximumResourceLinkIDLength then
            .err 400 "resource link ID exceeds maximum length"
          else .ok ()

/-- One step of the launch pipeline, in `ServeHTTP` order. -/
inductive Step where
  | rawToken | registration | signature | state | clientID
  | nonce | deployment | version | resourceLink | launchData
deriving DecidableEq, Repr

/-- Outcome of `Launch.ServeHTTP`: an HTTP error response, the handoff to
the next handler, or a runtime panic. -/
inductive LaunchOutcome where
  | responded : Nat → String → LaunchOutcome
  | handedOff : LaunchOutcome
  | panicked : LaunchOutcome
deriving DecidableEq, Repr

/-- `Launch.ServeHTTP`: the fail-fast validation chain, in source order.
Returns the steps executed (in order) and the outcome. -/
def serveHTTP (env : LaunchEnv) : List Step × LaunchOutcome :=
  match getRawToken env with
  | .err s m => ([.rawToken], .responded s m)
  | .panic => ([.rawToken], .panicked)
  | .ok _ =>
  match validateRegistration env with
  | .err s m => ([.rawToken, .registration], .responded s m)
  | .panic => ([.rawToken, .registration], .panicked)
  | .ok registration =>
  match validateSignature env registration with
  | .err s m => ([.rawToken, .registration, .signature], .responded s m)
  | .panic => ([.rawToken, .registration, .signature], .panicked)
  | .ok verifiedToken =>
  match validateState env with
  | .err s m => ([.rawToken, .registration, .signature, .state], .responded s m)
  | .panic => ([.rawToken, .registration, .signature, .state], .panicked)
  | .ok _ =>
  match validateClientID verifiedToken registration with
  | .err s m =>
    ([.rawToken, .registration, .signature, .state, .clientID], .responded s m)
  | .panic => ([.rawToken, .registration, .signature, .state, .clientID], .panicked)
  | .ok _ =>
  match (validateNonceAndTargetLinkURI verifiedToken env.nonces).1 with
  | .err s m =>
    ([.rawToken, .registration, .signature, .state, .clientID, .nonce], .responded s m)
  | .panic =>
    ([.rawToken, .registration, .signature, .state, .clientID, .nonce], .panicked)
  | .ok _ =>
  match validateDeploymentID verifiedToken env with
  | .err s m =>
    ([.rawToken, .registration, .signature, .state, .clientID, .nonce, .deployment],
      .responded s m)
  | .panic =>
    ([.rawToken, .registration, .signature, .state, .clientID, .nonce, .deployment],
      .panicked)
  | .ok _ =>
  match validateVersionAndMessageType verifiedToken with
  | .err s m =>
    ([.rawToken, .registration, .signature, .state, .clientID, .nonce, .deployment,
      .version], .responded s m)
  | .panic =>
    ([.rawToken, .registration, .signature, .state, .clientID, .nonce, .deployment,
      .version], .panicked)
  | .ok _ =>
  match validateResourceLink verifiedToken with
  | .err s m =>
    ([.rawToken, .registration, .signature, .state, .clientID, .nonce, .deployment,
      .version, .resourceLink], .responded s m)
  | .panic =>
    ([.rawToken, .registration, .signature, .state, .clientID, .nonce, .deployment,
      .version, .resourceLink], .panicked)
  | .ok _ =>
  match env.launchData with
  | .error e =>
    ([.rawToken, .registration, .signature, .state, .clientID, .nonce, .deployment,
      .version, .resourceLink, .launchData], .responded 400 ("get launch data: " ++ e))
  | .ok _ =>
    ([.rawToken, .registration, .signature, .state, .clientID, .nonce, .deployment,
      .version, .resourceLink, .launchData], .handedOff)

/-!
## Concrete launch data used by counterexamples and witnesses
-/

/-- A concrete registration used in concrete launch scenarios. -/
def demoRegistration : Registration :=
  { issuer := "https://platform.tld", clientID := "client1",
    authTokenURI := "https://platform.tld/token",
    authLoginURI := "https://platform.tld/auth",
    keysetURI := "https://platform.tld/keyset",
    targetLinkURI := "https://tool.tld/launch" }

/-- A concrete launch token with all claims well-formed except for the
supplied version claim value. -/
def demoToken (version : ClaimValue) : Token :=
  { issuer := "https://platform.tld", audience := ["client1"],
    claims :=
      [("https://purl.imsglobal.org/spec/lti/claim/target_link_uri",
          .str "https://tool.tld/launch"),
        ("nonce", .str "nonce1"),
        ("https://purl.imsglobal.org/spec/lti/claim/deployment_id", .str "dep1"),
        ("https://purl.imsglobal.org/spec/lti/claim/version", version),
        ("https://purl.imsglobal.org/spec/lti/claim/message_type",
          .str "LtiResourceLinkRequest"),
        ("https://purl.imsglobal.org/spec/lti/claim/resource_link",
          .obj [("id", .str "res1")])] }

/-- A launch environment in which every check succeeds except, possibly,
the version check for the supplied version claim value. -/
def demoEnv (version : ClaimValue) : LaunchEnv :=
  { parseResult := .ok (demoToken version),
    findReg := fun iss cid =>
      if iss = "https://platform.tld" ∧ cid = "client1" then .found demoRegistration
      else .errNotFound,
    keysetFetch := .ok (),
    verifyResult := .ok (demoToken version),
    cookieState := some "state1",
    formState := "state1",
    nonces := [("nonce1", "https://tool.tld/launch")],
    findDeployment := fun iss dep =>
      if iss = "https://platform.tld" ∧ dep = "dep1" then .found else .errNotFound,
    launchData := .ok () }

/-- A concrete launch environment whose token has a wrong audience: the
registration found for the issuer names client ID `client1`, but the
token's audience list is `[clientX]`. -/
def wrongAudienceEnv : LaunchEnv :=
  { demoEnv (.str "1.3.0") with
    parseResult := .ok { demoToken (.str "1.3.0") with audience := ["clientX"] },
    findReg := fun _ _ => .found demoRegistration,
    verifyResult := .ok { demoToken (.str "1.3.0") with audience := ["clientX"] } }

/-!
## C4: registration lookup by issuer and client ID
-/

/-- The modelled nonpersistent registration store plugged in as the launch
validator's `RegistrationStorer`. -/
def regStoreLookup (m : RegistrationMap) : String → String → RegLookupRes :=
  fun issuer clientID =>
    match findRegistrationByIssuerAndClientID m issuer clientID with
    | .ok r => .found r
    | .error _ => .errNotFound

/-- A concrete connector with one registration and an already-expired
cached token for scope list `["s1"]`. -/
def demoConnector : Connector :=
  { regs := storeRegistration [] demoRegistration,
    accessTokens := [(accessTokenIndex "https://platform.tld/token" "client1" ["s1"],
      { tokenURI := "https://platform.tld/token", clientID := "client1",
        scopes := ["s1"], token := "oldtok", expiryTime := 10 })],
    launchToken := demoToken (.str "1.3.0"),
    hasSigningKey := true,
    accessToken := { tokenURI := "", clientID := "", scopes := [], token := "",
                     expiryTime := 0 } }

/-!
## Service request dispatch (`connector.makeServiceRequest`) and the AGS
results pagination (`connector/ags.go`)

The HTTP layer is an oracle: each dispatched call is answered by a
`SvcResponse` carrying the status code, the `Link` response header value
(`headers.Get("link")`), and the response body as the `[]Result` the AGS
caller decodes from it.  `net/url` query assembly and the parse of the
next-page URI are external primitives; the parse, which accepts any header
string free of control bytes, is modelled as total.
-/

/-- `connector.Result`: a platform-assigned grade record.  The `float64`
score fields are modelled over `Int`; no claim depends on their
arithmetic. -/
structure Result where
  id : String
  scoreOf : String
  userID : String
  resultScore : Int
  resultMaximum : Int
  comment : String
deriving DecidableEq, Repr

/-- One HTTP response as seen by the dispatcher and the AGS caller. -/
structure SvcResponse where
  status : Nat
  link : String
  bodyResults : List Result
deriving DecidableEq, Repr

/-- `connector.ServiceRequest`: one outbound authenticated call
descriptor.  The opaque `io.Reader` body is an optional string. -/
structure ServiceRequest where
  scopes : List String
  method : String
  uri : String
  body : Option String
  contentType : String
  accept : String
  expectedStatus : Nat
deriving DecidableEq, Repr

/-- The resolved headers of the HTTP request the dispatcher issues. -/
structure OutboundRequest where
  method : String
  uri : String
  authorization : String
  accept : String
  contentType : String
deriving DecidableEq, Repr

/-- ASCII uppercase of one character (Go `strings.ToUpper` on the method
strings, which are ASCII). -/
def charUpper (c : Char) : Char :=
  if 97 ≤ c.toNat ∧ c.toNat ≤ 122 then Char.ofNat (c.toNat - 32) else c

/-- Go `strings.ToUpper` on ASCII strings. -/
def goToUpper (s : String) : String :=
  ⟨s.toList.map charUpper⟩

/-- `Connector.makeServiceRequest`: reject an empty scope list before any
network activity; default the content type for POST/PUT, the accept type,
and the expected status; obtain an access token; dispatch with the bearer
token and resolved headers; and reject a response status differing from
the expected status.  Returns the call result and the outbound service
request, when one was issued. -/
def makeServiceRequest (c : Connector) (s : ServiceRequest) (now : Int)
    (xchg : Except String (String × Int)) (resp : SvcResponse) :
    CRes (String × List Result) × Option OutboundRequest :=
  if s.scopes = [] then (.err "empty scope for service request", none)
  else
    let method := goToUpper s.method
    let contentType :=
      if (method = "POST" ∨ method = "PUT") ∧ s.contentType = "" then "application/json"
      else s.contentType
    let accept := if s.accept = "" then "application/json" else s.accept
    let expectedStatus := if s.expectedStatus = 0 then 200 else s.expectedStatus
    match getAccessToken c s.scopes now xchg with
    | .panic => (.panic, none)
    | .err e => (.err ("get access token for service request: " ++ e), none)
    | .ok (c', _) =>
      let request : OutboundRequest :=
        { method := s.method, uri := s.uri,
          authorization := "Bearer " ++ c'.accessToken.token,
          accept := accept, contentType := contentType }
      if resp.status ≠ expectedStatus then
        (.err "service request got unexpected response status", some request)
      else (.ok (resp.link, resp.bodyResults), some request)

/-- Whether the pattern is a leading segment of the character list. -/
def leadMatch : List Char → List Char → Bool
  | [], _ => true
  | _ :: _, [] => false
  | p :: ps, c :: cs => if p = c then leadMatch ps cs else false

/-- Whether the pattern occurs as a contiguous segment. -/
def hasSubstr (pat : List Char) : List Char → Bool
  | [] => leadMatch pat []
  | c :: cs => if leadMatch pat (c :: cs) then true else hasSubstr pat cs

/-- Go `strings.Contains(s, substr)`. -/
def goStringsContains (s substr : String) : Bool :=
  hasSubstr substr.toList s.toList

/-- Go `strings.Trim(s, cutset)`: strip leading and trailing characters of
the cutset. -/
def goTrim (s : String) (cutset : List Char) : String :=
  ⟨(((s.toList.dropWhile (fun c => List.elem c cutset)).reverse.dropWhile
    (fun c => List.elem c cutset)).reverse)⟩

/-- `connector.AGS`: the AGS handle with its line-item URIs, declared
scopes, and the mutable next-page pagination cursor. -/
structure AGS where
  lineItem : String
  lineItems : String
  scopes : List String
  nextPage : Option String
deriving DecidableEq, Repr

/-- `AGS.GetPagedResults`: reject a negative limit; build the results URI
from the line item (with `limit`/`user_id` query filters via `net/url`),
overridden by the stored next-page cursor when one is set; dispatch (the
oracle `svc` is the outcome of that `makeServiceRequest` call); then read
the `Link` response header: no `rel="next"` relation clears the cursor and
reports completion, otherwise the `<>`-trimmed URI (parsed by `net/url`,
modelled total) becomes the new cursor and more pages are reported. -/
def getPagedResults (a : AGS) (limit : Int) (_userID : String)
    (svc : Except String SvcResponse) : Except String (List Result × Bool × AGS) :=
  if limit < 0 then .error "invalid paging limit"
  else
    match svc with
    | .error e => .error ("get results make service request error: " ++ e)
    | .ok resp =>
      let results := resp.bodyResults
      let nextPageLink := resp.link
      if nextPageLink = "" ∨ goStringsContains nextPageLink "rel=\"next\"" = false then
        .ok (results, false, { a with nextPage := none })
      else
        .ok (results, true, { a with nextPage := some (goTrim nextPageLink ['<', '>']) })

/-- `AGS.resultsGetter`: one `GetPagedResults` call with limit 0, then a
loop while more pages are reported, appending each page's results.  The
environment supplies one response per call; the loop result also counts
the calls made.  An exhausted response list means the environment ended
while the loop still demanded a page. -/
def resultsGetterLoop (userID : String) (a : AGS) (pages : List SvcResponse) :
    Except String (List Result × AGS × Nat) :=
  match pages with
  | [] => .error "no response available"
  | page :: rest =>
    match getPagedResults a 0 userID (.ok page) with
    | .error e => .error e
    | .ok (results, hasMore, a') =>
      if hasMore then
        match resultsGetterLoop userID a' rest with
        | .error e => .error e
        | .ok (moreResults, aFinal, n) => .ok (results ++ moreResults, aFinal, n + 1)
      else .ok (results, a', 1)

/-- First results page: carries a next-page link. -/
def demoPage1 : SvcResponse :=
  { status := 200,
    link := "<https://ags.tld/lineitem/results?page=2>; rel=\"next\"",
    bodyResults := [{ id := "r1", scoreOf := "https://ags.tld/lineitem",
                      userID := "user1", resultScore := 90, resultMaximum := 100,
                      comment := "good" }] }

/-- Second and last results page: no next-page link. -/
def demoPage2 : SvcResponse :=
  { status := 200, link := "",
    bodyResults := [{ id := "r2", scoreOf := "https://ags.tld/lineitem",
                      userID := "user2", resultScore := 70, resultMaximum := 100,
                      comment := "fair" }] }

/-- The AGS handle the pagination witness starts from. -/
def demoAGS : AGS :=
  { lineItem := "https://ags.tld/lineitem", lineItems := "https://ags.tld/lineitems",
    scopes := ["https://purl.imsglobal.org/spec/lti-ags/scope/result.readonly"],
    nextPage := none }

/-- The service request the dispatcher witness submits. -/
def demoServiceRequest : ServiceRequest :=
  { scopes := ["s1"], method := "POST", uri := "https://ags.tld/lineitem/scores",
    body := some "{}", contentType := "", accept := "", expectedStatus := 0 }

/-- The connector produced by the witness's token exchange. -/
def demoConnectorAfter : Connector :=
  { demoConnector with
    accessTokens :=
      SMap.store [] (accessTokenIndex "https://platform.tld/token" "client1" ["s1"])
        { tokenURI := "https://platform.tld/token", clientID := "client1",
          scopes := ["s1"], token := "newtok", expiryTime := 3650 },
    accessToken := { tokenURI := "https://platform.tld/token", clientID := "client1",
                     scopes := ["s1"], token := "newtok", expiryTime := 3650 } }

/-!
## Theorems
-/

@[simp] theorem SMap.load_nil {V : Type} (k : String) :
    SMap.load ([] : SMap V) k = none := rfl

theorem SMap.load_store_self {V : Type} (m : SMap V) (k : String) (v : V) :
    load (store m k v) k = some v := by
  induction m with
  | nil => simp [load, store]
  | cons hd tl ih =>
    obtain ⟨k', v'⟩ := hd
    by_cases h : k' = k <;> simp [load, store, h, ih]

theorem SMap.load_erase_self {V : Type} (m : SMap V) (k : String) :
    load (erase m k) k = none := by
  induction m with
  | nil => simp [erase]
  | cons hd tl ih =>
    obtain ⟨k', v'⟩ := hd
    by_cases h : k' = k <;> simp [load, erase, h, ih]

theorem testAndClearNonce_found_ok (m : NonceMap) (n u : String)
    (hn : n ≠ "") (hu : u ≠ "") (hfound : SMap.load m n = some u) :
    testAndClearNonce m n u = (.ok, SMap.erase m n) := by
  simp [testAndClearNonce, hn, hu, hfound]

theorem testAndClearNonce_absent (m : NonceMap) (n u : String)
    (hn : n ≠ "") (hu : u ≠ "") (habsent : SMap.load m n = none) :
    testAndClearNonce m n u = (.errNonceNotFound, m) := by
  simp [testAndClearNonce, hn, hu, habsent]

theorem testAndClearNonce_clears (m : NonceMap) (n u : String)
    (hn : n ≠ "") (hu : u ≠ "") (hfound : ∃ v, SMap.load m n = some v) :
    SMap.load (testAndClearNonce m n u).2 n = none := by
  obtain ⟨v, hv⟩ := hfound
  by_cases hmatch : v ≠ u <;>
    simp [testAndClearNonce, hn, hu, hv, hmatch, SMap.load_erase_self]

/-- C1: for a nonce `n` stored with URI `u`, the first test-and-clear of
`n` against `u` succeeds, it removes the entry, and from then on (the entry
being absent) every test-and-clear of `n` with any nonempty URI `u'` returns
`ErrNonceNotFound` and leaves the entry absent. -/
theorem nonce_single_use (m : NonceMap) (n u : String)
    (hn : n ≠ "") (hu : u ≠ "") (hstored : SMap.load m n = some u) :
    (testAndClearNonce m n u).1 = .ok ∧
    SMap.load (testAndClearNonce m n u).2 n = none ∧
    (∀ (m' : NonceMap) (u' : String), u' ≠ "" → SMap.load m' n = none →
      (testAndClearNonce m' n u').1 = .errNonceNotFound ∧
      SMap.load (testAndClearNonce m' n u').2 n = none) := by
  refine ⟨?_, ?_, ?_⟩
  · rw [testAndClearNonce_found_ok m n u hn hu hstored]
  · rw [testAndClearNonce_found_ok m n u hn hu hstored]
    exact SMap.load_erase_self m n
  · intro m' u' hu' habsent
    rw [testAndClearNonce_absent m' n u' hn hu' habsent]
    exact ⟨rfl, habsent⟩

/-- Witness for `nonce_single_use` at a concrete store. -/
theorem nonce_single_use_witness :
    (testAndClearNonce [("nonce1", "https://tool.tld/launch")] "nonce1"
        "https://tool.tld/launch").1 = .ok ∧
    SMap.load (testAndClearNonce [("nonce1", "https://tool.tld/launch")] "nonce1"
        "https://tool.tld/launch").2 "nonce1" = none ∧
    (∀ (m' : NonceMap) (u' : String), u' ≠ "" → SMap.load m' "nonce1" = none →
      (testAndClearNonce m' "nonce1" u').1 = .errNonceNotFound ∧
      SMap.load (testAndClearNonce m' "nonce1" u').2 "nonce1" = none) :=
  nonce_single_use [("nonce1", "https://tool.tld/launch")] "nonce1"
    "https://tool.tld/launch" (by decide) (by decide) (by decide)

/-- C10: a target-link-URI mismatch still clears the nonce: after
`TestAndClearNonce n u'` with `u' ≠ u` (which returns the mismatch error),
a retry with the correct URI `u` returns `ErrNonceNotFound`. -/
theorem nonce_mismatch_clears (m : NonceMap) (n u u' : String)
    (hn : n ≠ "") (hu : u ≠ "") (hu' : u' ≠ "") (hne : u' ≠ u)
    (hstored : SMap.load m n = some u) :
    (testAndClearNonce m n u').1 = .errNonceTargetLinkURIMismatch ∧
    (testAndClearNonce (testAndClearNonce m n u').2 n u).1 = .errNonceNotFound := by
  have hne' : u ≠ u' := fun h => hne h.symm
  have hstep : testAndClearNonce m n u' = (.errNonceTargetLinkURIMismatch, SMap.erase m n) := by
    simp [testAndClearNonce, hn, hu', hstored, hne']
  refine ⟨by rw [hstep], ?_⟩
  rw [hstep]
  rw [testAndClearNonce_absent (SMap.erase m n) n u hn hu (SMap.load_erase_self m n)]

/-- Witness for `nonce_mismatch_clears` at a concrete store. -/
theorem nonce_mismatch_clears_witness :
    (testAndClearNonce [("nonce2", "https://tool.tld/a")] "nonce2" "https://tool.tld/b").1 =
      .errNonceTargetLinkURIMismatch ∧
    (testAndClearNonce
        (testAndClearNonce [("nonce2", "https://tool.tld/a")] "nonce2" "https://tool.tld/b").2
        "nonce2" "https://tool.tld/a").1 = .errNonceNotFound :=
  nonce_mismatch_clears [("nonce2", "https://tool.tld/a")] "nonce2"
    "https://tool.tld/a" "https://tool.tld/b"
    (by decide) (by decide) (by decide) (by decide) (by decide)

/-!
## C2: unsupported version
-/

/-- C2 counterexample: an otherwise-valid launch carrying version
`"1.2.0"` is answered 400 with the version-mismatch reason, but the
deployment check **is** reached (the deployment store is queried at step 7,
before the version check at step 8), refuting "the deployment check ... is
never reached". -/
theorem version_mismatch_reaches_deployment_check :
    (serveHTTP (demoEnv (.str "1.2.0"))).2 =
      .responded 400 "compatible version not found in request" ∧
    Step.deployment ∈ (serveHTTP (demoEnv (.str "1.2.0"))).1 := by
  constructor
  · rfl
  · decide

/-- C2 (amended): a launch whose verified token carries an unsupported
version and which passes every earlier check is answered 400 with the
version-mismatch reason and never reaches the resource-link check, but the
deployment check runs (and the deployment store is queried) before the
version check. -/
theorem version_mismatch_responds_400 (env : LaunchEnv) (t vt : Token)
    (a0 : String) (rest : List String) (reg : Registration) (ver : ClaimValue)
    (hparse : env.parseResult = .ok t)
    (haud : t.audience = a0 :: rest)
    (hfind : env.findReg t.issuer a0 = .found reg)
    (hkeyset : env.keysetFetch = .ok ())
    (hverify : env.verifyResult = .ok vt)
    (hcookie : env.cookieState = some env.formState)
    (hcid : goContains reg.clientID vt.audience = true)
    (hnonce : (validateNonceAndTargetLinkURI vt env.nonces).1 = .ok ())
    (hdep : validateDeploymentID vt env = .ok ())
    (hver : vt.get "https://purl.imsglobal.org/spec/lti/claim/version" = some ver)
    (hne : claimEqString ver supportedLTIVersion = false) :
    serveHTTP env = ([.rawToken, .registration, .signature, .state, .clientID, .nonce,
      .deployment, .version], .responded 400 "compatible version not found in request") := by
  unfold serveHTTP
  simp [getRawToken, hparse, validateRegistration, haud, hfind, validateSignature,
    hkeyset, hverify, validateState, hcookie, validateClientID, hcid, hnonce, hdep,
    validateVersionAndMessageType, hver, hne]

/-- Witness for `version_mismatch_responds_400` on the concrete
version-`"1.2.0"` launch. -/
theorem version_mismatch_responds_400_witness :
    serveHTTP (demoEnv (.str "1.2.0")) =
      ([.rawToken, .registration, .signature, .state, .clientID, .nonce,
        .deployment, .version],
        .responded 400 "compatible version not found in request") :=
  version_mismatch_responds_400 (demoEnv (.str "1.2.0"))
    (demoToken (.str "1.2.0")) (demoToken (.str "1.2.0")) "client1" []
    demoRegistration (.str "1.2.0") rfl rfl rfl rfl rfl rfl rfl rfl rfl rfl rfl

/-!
## C7: pipeline ordering around signature and audience
-/

/-- C7: a launch whose signature fails to verify (key set fetched, verify
errors) is rejected at the signature step, with the state, audience,
nonce, deployment, version and resource-link checks never executed; and a
launch whose signature verifies and state matches but whose verified
audience list omits the found registration's client ID is rejected at the
audience (client ID) step, after — not before — the signature and state
steps, with no later check executed. -/
theorem pipeline_signature_and_audience_ordering
    (env₁ env₂ : LaunchEnv) (t₁ t₂ vt₂ : Token) (a₁ a₂ : String)
    (r₁ r₂ : List String) (reg₁ reg₂ : Registration) (e₁ : String)
    (h1p : env₁.parseResult = .ok t₁) (h1a : t₁.audience = a₁ :: r₁)
    (h1f : env₁.findReg t₁.issuer a₁ = .found reg₁)
    (h1k : env₁.keysetFetch = .ok ()) (h1v : env₁.verifyResult = .error e₁)
    (h2p : env₂.parseResult = .ok t₂) (h2a : t₂.audience = a₂ :: r₂)
    (h2f : env₂.findReg t₂.issuer a₂ = .found reg₂)
    (h2k : env₂.keysetFetch = .ok ()) (h2v : env₂.verifyResult = .ok vt₂)
    (h2c : env₂.cookieState = some env₂.formState)
    (h2aud : goContains reg₂.clientID vt₂.audience = false) :
    serveHTTP env₁ = ([.rawToken, .registration, .signature],
      .responded 400 ("validate signature: " ++ e₁)) ∧
    serveHTTP env₂ = ([.rawToken, .registration, .signature, .state, .clientID],
      .responded 400 "client ID not registered for this issuer") := by
  constructor
  · unfold serveHTTP
    simp [getRawToken, h1p, validateRegistration, h1a, h1f, validateSignature, h1k, h1v]
  · unfold serveHTTP
    simp [getRawToken, h2p, validateRegistration, h2a, h2f, validateSignature, h2k, h2v,
      validateState, h2c, validateClientID, h2aud]

/-- Witness for `pipeline_signature_and_audience_ordering` on concrete
tampered-signature and wrong-audience launches. -/
theorem pipeline_signature_and_audience_ordering_witness :
    serveHTTP { demoEnv (.str "1.3.0") with verifyResult := .error "failed to verify jws signature" } =
      ([.rawToken, .registration, .signature],
        .responded 400 ("validate signature: " ++ "failed to verify jws signature")) ∧
    serveHTTP wrongAudienceEnv =
      ([.rawToken, .registration, .signature, .state, .clientID],
        .responded 400 "client ID not registered for this issuer") :=
  pipeline_signature_and_audience_ordering
    { demoEnv (.str "1.3.0") with verifyResult := .error "failed to verify jws signature" }
    wrongAudienceEnv
    (demoToken (.str "1.3.0")) { demoToken (.str "1.3.0") with audience := ["clientX"] }
    { demoToken (.str "1.3.0") with audience := ["clientX"] }
    "client1" "clientX" [] [] demoRegistration demoRegistration
    "failed to verify jws signature"
    rfl rfl rfl rfl rfl rfl rfl rfl rfl rfl rfl rfl

/-- C4: a registration stored only under (issuer, clientID1) is not
returned by a lookup for the same issuer with a different clientID2: the
store reports `ErrRegistrationNotFound` and the launch validator answers
with the 400 registration-not-found outcome. -/
theorem registration_lookup_matches_client_id
    (m : RegistrationMap) (reg : Registration) (clientID2 : String)
    (env : LaunchEnv) (t : Token)
    (hne : clientID2 ≠ reg.clientID)
    (hbase : RegistrationMap.find m (reg.issuer, clientID2) = none)
    (hparse : env.parseResult = .ok t)
    (hiss : t.issuer = reg.issuer)
    (haud : t.audience = [clientID2])
    (hstore : env.findReg = regStoreLookup (storeRegistration m reg)) :
    findRegistrationByIssuerAndClientID (storeRegistration m reg) reg.issuer clientID2 =
      .error "registration not found" ∧
    validateRegistration env = .err 400 ("no registration found for iss " ++ reg.issuer) := by
  have hfind : RegistrationMap.find (storeRegistration m reg) (reg.issuer, clientID2) = none := by
    have hkey : ((reg.issuer, reg.clientID) : String × String) ≠ (reg.issuer, clientID2) := by
      intro h
      exact hne (congrArg Prod.snd h).symm
    simp [storeRegistration, RegistrationMap.find, hkey, hbase]
  constructor
  · simp [findRegistrationByIssuerAndClientID, hfind]
  · simp [validateRegistration, hparse, haud, hstore, regStoreLookup,
      findRegistrationByIssuerAndClientID, hfind, hiss]

/-- Witness for `registration_lookup_matches_client_id` with the demo
registration and a second client ID. -/
theorem registration_lookup_matches_client_id_witness :
    findRegistrationByIssuerAndClientID (storeRegistration [] demoRegistration)
      "https://platform.tld" "client2" = .error "registration not found" ∧
    validateRegistration
      { demoEnv (.str "1.3.0") with
        parseResult := .ok { demoToken (.str "1.3.0") with audience := ["client2"] },
        findReg := regStoreLookup (storeRegistration [] demoRegistration) } =
      .err 400 ("no registration found for iss " ++ "https://platform.tld") :=
  registration_lookup_matches_client_id [] demoRegistration "client2"
    { demoEnv (.str "1.3.0") with
      parseResult := .ok { demoToken (.str "1.3.0") with audience := ["client2"] },
      findReg := regStoreLookup (storeRegistration [] demoRegistration) }
    { demoToken (.str "1.3.0") with audience := ["client2"] }
    (by decide) rfl rfl rfl rfl rfl

/-!
## C5: malformed resource link
-/

/-- C5: the resource-link validator classifies a missing claim, a
non-object claim, a missing `id`, and an oversized `id` as 400s, but a
present, object-shaped resource link whose `id` holds a **non-string**
JSON value hits the unchecked `resourceLinkID.(string)` assertion and
panics instead of returning a classified client error. -/
theorem resource_link_nonstring_id_panics :
    validateResourceLink { issuer := "https://platform.tld", audience := ["client1"],
                           claims := [("https://purl.imsglobal.org/spec/lti/claim/resource_link",
                             ClaimValue.obj [("id", .num 42)])] } = .panic ∧
    validateResourceLink { issuer := "https://platform.tld", audience := ["client1"],
                           claims := [("https://purl.imsglobal.org/spec/lti/claim/resource_link",
                             ClaimValue.obj [("id", .str "res1")])] } = .ok () ∧
    validateResourceLink { issuer := "https://platform.tld", audience := ["client1"],
                           claims := [] } = .err 400 "resource link not found in request" ∧
    validateResourceLink { issuer := "https://platform.tld", audience := ["client1"],
                           claims := [("https://purl.imsglobal.org/spec/lti/claim/resource_link",
                             ClaimValue.str "not an object")] } =
      .err 400 "resource link improperly formatted" :=
  ⟨rfl, rfl, rfl, rfl⟩

/-!
## C6: expired cached tokens are never returned
-/

/-- C6: when the cached token under the probed key has an expiry instant
before `now`, `GetAccessToken` does not return it: the store probe reports
it expired, a token-endpoint exchange is performed (flag `true`), and the
connector's new active token is the exchange response with absolute expiry
`now + expires_in`, cached under the (sorted-scope) index. -/
theorem expired_token_triggers_fresh_exchange
    (c : Connector) (scopes : List String) (now : Int) (tok : String) (expIn : Int)
    (a0 : String) (rest : List String) (reg : Registration) (cached : AccessToken)
    (haud : c.launchToken.audience = a0 :: rest)
    (hreg : findRegistrationByIssuerAndClientID c.regs c.launchToken.issuer a0 = .ok reg)
    (huri : reg.authTokenURI ≠ "") (hcid : reg.clientID ≠ "") (hsc : scopes ≠ [])
    (hcached : SMap.load c.accessTokens
      (accessTokenIndex reg.authTokenURI reg.clientID scopes) = some cached)
    (hexp : cached.expiryTime < now)
    (hkey : c.hasSigningKey = true)
    (htok : tok ≠ "") (hfresh : now + expIn ≠ 0) :
    getAccessToken c scopes now (.ok (tok, expIn)) =
      .ok ({ c with
             accessTokens := SMap.store c.accessTokens
               (accessTokenIndex reg.authTokenURI reg.clientID (sortStrings scopes))
               { tokenURI := reg.authTokenURI, clientID := reg.clientID,
                 scopes := sortStrings scopes, token := tok, expiryTime := now + expIn },
             accessToken := { tokenURI := reg.authTokenURI, clientID := reg.clientID,
                              scopes := scopes, token := tok,
                              expiryTime := now + expIn } }, true) := by
  have hregc : c.getRegistration = .ok reg := by
    simp [Connector.getRegistration, haud, hreg]
  have hfind : findAccessTokenByIndex c.accessTokens reg.authTokenURI reg.clientID
      scopes now = .error "access token has expired" := by
    simp [findAccessTokenByIndex, huri, hcid, hsc, hcached, hexp]
  have hcheck : checkAccessTokenStore c.accessTokens reg.authTokenURI reg.clientID
      scopes now = .error ("suitable access token not found: " ++ "access token has expired") := by
    simp [checkAccessTokenStore, hfind]
  have hstore : storeAccessToken c.accessTokens
      { tokenURI := reg.authTokenURI, clientID := reg.clientID,
        scopes := scopes, token := tok, expiryTime := now + expIn } =
      .ok (SMap.store c.accessTokens
        (accessTokenIndex reg.authTokenURI reg.clientID (sortStrings scopes))
        { tokenURI := reg.authTokenURI, clientID := reg.clientID,
          scopes := sortStrings scopes, token := tok, expiryTime := now + expIn }) := by
    simp [storeAccessToken, huri, hcid, hsc, htok, hfresh]
  unfold getAccessToken
  simp [hregc, hcheck, createRequest, hkey, sendRequest, hstore]

/-- Witness for `expired_token_triggers_fresh_exchange` on the concrete
connector at time 50 with a fresh token valid for 3600 seconds. -/
theorem expired_token_triggers_fresh_exchange_witness :
    getAccessToken demoConnector ["s1"] 50 (.ok ("newtok", 3600)) =
      .ok ({ demoConnector with
             accessTokens := SMap.store demoConnector.accessTokens
               (accessTokenIndex "https://platform.tld/token" "client1" (sortStrings ["s1"]))
               { tokenURI := "https://platform.tld/token", clientID := "client1",
                 scopes := sortStrings ["s1"], token := "newtok", expiryTime := 50 + 3600 },
             accessToken := { tokenURI := "https://platform.tld/token", clientID := "client1",
                              scopes := ["s1"], token := "newtok",
                              expiryTime := 50 + 3600 } }, true) :=
  expired_token_triggers_fresh_exchange demoConnector ["s1"] 50 "newtok" 3600
    "client1" [] demoRegistration
    { tokenURI := "https://platform.tld/token", clientID := "client1",
      scopes := ["s1"], token := "oldtok", expiryTime := 10 }
    rfl rfl (by decide) (by decide) (by decide) rfl (by decide) rfl (by decide) (by decide)

/-!
## C3: access-token cache idempotence and scope canonicalization
-/

/-- C3 counterexample: `StoreAccessToken` canonicalizes the scope list by
sorting before indexing, but `FindAccessToken` indexes by the list as
given, so storing under one order and finding under another (unsorted)
order fails with "no access token found" — while the sorted-order lookup
finds the entry.  This refutes "two scope lists that are permutations of
each other hit the same cache entry". -/
theorem scope_permutation_misses_cache :
    storeAccessToken ([] : AccessTokenMap)
      { tokenURI := "https://platform.tld/token", clientID := "client1",
        scopes := ["scopeA", "scopeB"], token := "tok1", expiryTime := 100 } =
      .ok [("https://platform.tld/tokenclient1scopeA scopeB",
        { tokenURI := "https://platform.tld/token", clientID := "client1",
          scopes := ["scopeA", "scopeB"], token := "tok1", expiryTime := 100 })] ∧
    findAccessToken
      [("https://platform.tld/tokenclient1scopeA scopeB",
        { tokenURI := "https://platform.tld/token", clientID := "client1",
          scopes := ["scopeA", "scopeB"], token := "tok1", expiryTime := 100 })]
      { tokenURI := "https://platform.tld/token", clientID := "client1",
        scopes := ["scopeB", "scopeA"], token := "tok1", expiryTime := 100 } 50 =
      .error "no access token found" ∧
    findAccessToken
      [("https://platform.tld/tokenclient1scopeA scopeB",
        { tokenURI := "https://platform.tld/token", clientID := "client1",
          scopes := ["scopeA", "scopeB"], token := "tok1", expiryTime := 100 })]
      { tokenURI := "https://platform.tld/token", clientID := "client1",
        scopes := ["scopeA", "scopeB"], token := "tok1", expiryTime := 100 } 50 =
      .ok { tokenURI := "https://platform.tld/token", clientID := "client1",
            scopes := ["scopeA", "scopeB"], token := "tok1", expiryTime := 100 } :=
  ⟨rfl, rfl, rfl⟩

/-- C3 (amended): with an already-sorted scope list, two `GetAccessToken`
calls before the cached token's expiry return the identical token string
and the second call performs no token-endpoint exchange; the cache-key
canonicalization happens only in `StoreAccessToken`, so the cache entry is
hit exactly when the lookup order's index equals the sorted index. -/
theorem access_token_cache_idempotent_sorted
    (c : Connector) (scopes : List String) (now₁ now₂ : Int) (tok : String) (expIn : Int)
    (a0 : String) (rest : List String) (reg : Registration)
    (haud : c.launchToken.audience = a0 :: rest)
    (hreg : findRegistrationByIssuerAndClientID c.regs c.launchToken.issuer a0 = .ok reg)
    (huri : reg.authTokenURI ≠ "") (hcid : reg.clientID ≠ "") (hsc : scopes ≠ [])
    (hsorted : sortStrings scopes = scopes)
    (hmiss : SMap.load c.accessTokens
      (accessTokenIndex reg.authTokenURI reg.clientID scopes) = none)
    (hkey : c.hasSigningKey = true)
    (htok : tok ≠ "") (hfresh : now₁ + expIn ≠ 0)
    (hbefore : ¬ now₁ + expIn < now₂) :
    ∃ c₁, getAccessToken c scopes now₁ (.ok (tok, expIn)) = .ok (c₁, true) ∧
      c₁.accessToken.token = tok ∧
      ∀ xchg₂, ∃ c₂, getAccessToken c₁ scopes now₂ xchg₂ = .ok (c₂, false) ∧
        c₂.accessToken.token = c₁.accessToken.token := by
  have hregc : c.getRegistration = .ok reg := by
    simp [Connector.getRegistration, haud, hreg]
  have hfind : findAccessTokenByIndex c.accessTokens reg.authTokenURI reg.clientID
      scopes now₁ = .error "no access token found" := by
    simp [findAccessTokenByIndex, huri, hcid, hsc, hmiss]
  have hcheck : checkAccessTokenStore c.accessTokens reg.authTokenURI reg.clientID
      scopes now₁ = .error ("suitable access token not found: " ++ "no access token found") := by
    simp [checkAccessTokenStore, hfind]
  have hstore : storeAccessToken c.accessTokens
      { tokenURI := reg.authTokenURI, clientID := reg.clientID,
        scopes := scopes, token := tok, expiryTime := now₁ + expIn } =
      .ok (SMap.store c.accessTokens
        (accessTokenIndex reg.authTokenURI reg.clientID scopes)
        { tokenURI := reg.authTokenURI, clientID := reg.clientID,
          scopes := scopes, token := tok, expiryTime := now₁ + expIn }) := by
    simp [storeAccessToken, huri, hcid, hsc, htok, hfresh, hsorted]
  refine ⟨{ c with
            accessTokens := SMap.store c.accessTokens
              (accessTokenIndex reg.authTokenURI reg.clientID scopes)
              { tokenURI := reg.authTokenURI, clientID := reg.clientID,
                scopes := scopes, token := tok, expiryTime := now₁ + expIn },
            accessToken := { tokenURI := reg.authTokenURI, clientID := reg.clientID,
                             scopes := scopes, token := tok,
                             expiryTime := now₁ + expIn } }, ?_, rfl, ?_⟩
  · unfold getAccessToken
    simp [hregc, hcheck, createRequest, hkey, sendRequest, hstore]
  · intro xchg₂
    have hfind₂ : findAccessTokenByIndex
        (SMap.store c.accessTokens (accessTokenIndex reg.authTokenURI reg.clientID scopes)
          { tokenURI := reg.authTokenURI, clientID := reg.clientID,
            scopes := scopes, token := tok, expiryTime := now₁ + expIn })
        reg.authTokenURI reg.clientID scopes now₂ =
        .ok { tokenURI := reg.authTokenURI, clientID := reg.clientID,
              scopes := scopes, token := tok, expiryTime := now₁ + expIn } := by
      simp [findAccessTokenByIndex, huri, hcid, hsc, SMap.load_store_self, hbefore]
    refine ⟨_, ?_, rfl⟩
    unfold getAccessToken
    simp [Connector.getRegistration, haud, hreg, checkAccessTokenStore, hfind₂, hbefore]

/-- Witness for `access_token_cache_idempotent_sorted` on the concrete
connector (after emptying its token cache) with the sorted scope list
`["s1"]`. -/
theorem access_token_cache_idempotent_sorted_witness :
    ∃ c₁, getAccessToken { demoConnector with accessTokens := [] } ["s1"] 50
        (.ok ("newtok", 3600)) = .ok (c₁, true) ∧
      c₁.accessToken.token = "newtok" ∧
      ∀ xchg₂, ∃ c₂, getAccessToken c₁ ["s1"] 60 xchg₂ = .ok (c₂, false) ∧
        c₂.accessToken.token = c₁.accessToken.token :=
  access_token_cache_idempotent_sorted { demoConnector with accessTokens := [] }
    ["s1"] 50 60 "newtok" 3600 "client1" [] demoRegistration
    rfl rfl (by decide) (by decide) (by decide) rfl rfl rfl (by decide) (by decide)
    (by decide)

theorem resultsGetterLoop_cons (userID : String) (a : AGS) (page : SvcResponse)
    (rest : List SvcResponse) :
    resultsGetterLoop userID a (page :: rest) =
      match getPagedResults a 0 userID (.ok page) with
      | .error e => .error e
      | .ok (results, hasMore, a') =>
        if hasMore then
          match resultsGetterLoop userID a' rest with
          | .error e => .error e
          | .ok (moreResults, aFinal, n) => .ok (results ++ moreResults, aFinal, n + 1)
        else .ok (results, a', 1) := rfl

theorem resultsGetterLoop_spec (userID : String) :
    ∀ (pages : List SvcResponse) (a : AGS), pages ≠ [] →
      (∀ p ∈ pages.dropLast, goStringsContains p.link "rel=\"next\"" = true) →
      (∀ (plast : SvcResponse), pages.getLast? = some plast →
        goStringsContains plast.link "rel=\"next\"" = false) →
      ∃ aFinal, resultsGetterLoop userID a pages =
          .ok ((pages.map SvcResponse.bodyResults).flatten, aFinal, pages.length) ∧
        aFinal.nextPage = none := by
  intro pages
  induction pages with
  | nil => intro a hne _ _; exact absurd rfl hne
  | cons p rest ih =>
    intro a _ hmid hlast
    cases rest with
    | nil =>
      have hplink : goStringsContains p.link "rel=\"next\"" = false := hlast p rfl
      refine ⟨{ a with nextPage := none }, ?_, rfl⟩
      simp [resultsGetterLoop, getPagedResults, hplink]
    | cons q rest' =>
      have hp : goStringsContains p.link "rel=\"next\"" = true := by
        apply hmid p
        show p ∈ (p :: (q :: rest').dropLast)
        exact List.mem_cons_self p _
      have hplink : ¬ p.link = "" := by
        intro h
        rw [h] at hp
        exact absurd hp (by decide)
      obtain ⟨aF, hloop, hnone⟩ :=
        ih { a with nextPage := some (goTrim p.link ['<', '>']) }
          (by simp)
          (fun r hr => hmid r (show r ∈ p :: (q :: rest').dropLast from
            List.mem_cons_of_mem p hr))
          (fun plast hplast => hlast plast hplast)
      refine ⟨aF, ?_, hnone⟩
      rw [resultsGetterLoop_cons]
      have hstep : getPagedResults a 0 userID (.ok p) =
          .ok (p.bodyResults, true, { a with nextPage := some (goTrim p.link ['<', '>']) }) := by
        simp [getPagedResults, hp, hplink]
      rw [hstep]
      simp [hloop]

/-- C8: a paged fetch over `k` responses, each carrying a
`Link: rel="next"` header except the last, terminates after exactly `k`
`GetPagedResults` calls, returns the pages' result lists concatenated in
call order, and leaves the handle's next-page cursor `nil`; and within any
single call, `hasMore` is reported true exactly when the response's `Link`
header contains `rel="next"`. -/
theorem paged_results_termination (userID : String) (pages : List SvcResponse)
    (a b : AGS) (plast resp : SvcResponse)
    (hstart : a.nextPage = none)
    (hne : pages ≠ [])
    (hmid : ∀ p ∈ pages.dropLast, goStringsContains p.link "rel=\"next\"" = true)
    (hlastEq : pages.getLast? = some plast)
    (hlastLink : goStringsContains plast.link "rel=\"next\"" = false) :
    (∃ aFinal, resultsGetterLoop userID a pages =
        .ok ((pages.map SvcResponse.bodyResults).flatten, aFinal, pages.length) ∧
      aFinal.nextPage = none) ∧
    (∃ b', getPagedResults b 0 userID (.ok resp) =
      .ok (resp.bodyResults, goStringsContains resp.link "rel=\"next\"", b')) := by
  constructor
  · exact resultsGetterLoop_spec userID pages a hne hmid
      (fun pl hpl => by rw [hlastEq] at hpl; cases hpl; exact hlastLink)
  · by_cases hlink : resp.link = ""
    · refine ⟨{ b with nextPage := none }, ?_⟩
      have hempty : goStringsContains "" "rel=\"next\"" = false := by decide
      simp [getPagedResults, hlink, hempty]
    · cases hc : goStringsContains resp.link "rel=\"next\"" with
      | false =>
        refine ⟨{ b with nextPage := none }, ?_⟩
        simp [getPagedResults, hlink, hc]
      | true =>
        refine ⟨{ b with nextPage := some (goTrim resp.link ['<', '>']) }, ?_⟩
        simp [getPagedResults, hlink, hc]

/-- Witness for `paged_results_termination` on a concrete two-page fetch. -/
theorem paged_results_termination_witness :
    (∃ aFinal, resultsGetterLoop "" demoAGS [demoPage1, demoPage2] =
        .ok (([demoPage1, demoPage2].map SvcResponse.bodyResults).flatten, aFinal,
          [demoPage1, demoPage2].length) ∧
      aFinal.nextPage = none) ∧
    (∃ b', getPagedResults demoAGS 0 "" (.ok demoPage1) =
      .ok (demoPage1.bodyResults,
        goStringsContains demoPage1.link "rel=\"next\"", b')) :=
  paged_results_termination "" [demoPage1, demoPage2] demoAGS demoAGS
    demoPage2 demoPage1 rfl (by decide) (by decide) rfl (by decide)

/-- C9: the dispatcher rejects an empty scope list before any token fetch
or HTTP call (for every oracle and response, no outbound request exists);
with scopes present and a token obtained, it issues the call with the
bearer token, `application/json` defaults for an unspecified content type
under a POST/PUT method and for an unspecified accept type, succeeds on
the defaulted expected status 200, and reports an error when the response
status differs from the configured expected status. -/
theorem service_request_dispatch
    (c : Connector) (s₀ s s₂ : ServiceRequest) (now : Int)
    (xchg : Except String (String × Int)) (resp resp₂ : SvcResponse)
    (c' : Connector) (ex : Bool)
    (h0 : s₀.scopes = [])
    (hs : s.scopes ≠ [])
    (htok : getAccessToken c s.scopes now xchg = .ok (c', ex))
    (hct : s.contentType = "") (hacc : s.accept = "")
    (hmeth : goToUpper s.method = "POST" ∨ goToUpper s.method = "PUT")
    (hexp : s.expectedStatus = 0)
    (hstat : resp.status = 200)
    (hs₂ : s₂.scopes = s.scopes)
    (hexp₂ : s₂.expectedStatus ≠ 0)
    (hstat₂ : resp₂.status ≠ s₂.expectedStatus) :
    makeServiceRequest c s₀ now xchg resp = (.err "empty scope for service request", none) ∧
    makeServiceRequest c s now xchg resp =
      (.ok (resp.link, resp.bodyResults),
        some { method := s.method, uri := s.uri,
               authorization := "Bearer " ++ c'.accessToken.token,
               accept := "application/json", contentType := "application/json" }) ∧
    (makeServiceRequest c s₂ now xchg resp₂).1 =
      .err "service request got unexpected response status" := by
  refine ⟨?_, ?_, ?_⟩
  · simp [makeServiceRequest, h0]
  · simp [makeServiceRequest, hs, htok, hct, hacc, hmeth, hexp, hstat]
  · have hs₂' : s₂.scopes ≠ [] := by rw [hs₂]; exact hs
    have htok₂ : getAccessToken c s₂.scopes now xchg = .ok (c', ex) := by
      rw [hs₂]; exact htok
    simp [makeServiceRequest, hs₂', htok₂, hexp₂, hstat₂]

/-- Witness for `service_request_dispatch` on concrete requests. -/
theorem service_request_dispatch_witness :
    makeServiceRequest { demoConnector with accessTokens := [] }
      { demoServiceRequest with scopes := [] } 50 (.ok ("newtok", 3600))
      { status := 200, link := "", bodyResults := [] } =
      (.err "empty scope for service request", none) ∧
    makeServiceRequest { demoConnector with accessTokens := [] }
      demoServiceRequest 50 (.ok ("newtok", 3600))
      { status := 200, link := "", bodyResults := [] } =
      (.ok ("", []),
        some { method := "POST", uri := "https://ags.tld/lineitem/scores",
               authorization := "Bearer " ++ demoConnectorAfter.accessToken.token,
               accept := "application/json", contentType := "application/json" }) ∧
    (makeServiceRequest { demoConnector with accessTokens := [] }
      { demoServiceRequest with expectedStatus := 201 } 50 (.ok ("newtok", 3600))
      { status := 200, link := "", bodyResults := [] }).1 =
      .err "service request got unexpected response status" :=
  service_request_dispatch { demoConnector with accessTokens := [] }
    { demoServiceRequest with scopes := [] } demoServiceRequest
    { demoServiceRequest with expectedStatus := 201 } 50 (.ok ("newtok", 3600))
    { status := 200, link := "", bodyResults := [] }
    { status := 200, link := "", bodyResults := [] }
    demoConnectorAfter true
    rfl (by decide) rfl rfl rfl (.inl rfl) rfl rfl rfl (by decide) (by decide)

end Lti

